import Mathlib

/-!
Verification development for the session/device/lockout core of the
backend-deployment repository: the key-value store adapter
(src/config/redis.js), the device registry on the user entity
(src/models/User.js) and the login/session routes (src/routes/auth.js)
are shallowly embedded below, and the stated properties are settled
against that embedding.

Modelling conventions:
- the external key-value store is a finite map from structured keys
  (mirroring the string key prefixes of redis.js) to values, together
  with a TTL table and a table of sets; TTLs are recorded but clock
  driven expiry between operations is not modelled;
- redis stores counters and timestamps as decimal strings; the decimal
  round trip (Date.now().toString / parseInt, INCR integer parsing) is
  modelled as the identity on naturals via a numeric value constructor;
- the fail-open wrapper safeRedisOp is modelled by a readiness flag on
  the store: when the flag is off, every operation returns its
  call-site fallback and leaves the store unchanged;
- external collaborators (mongo lookup, bcrypt compare, crypto uuid,
  jwt signing, the md5 digest) enter as explicit parameters of the
  orchestrator functions.
-/

/-- Association list lookup: the first binding of the key wins, so a
later `aset` (cons) shadows earlier bindings. -/
def aget {κ : Type} {α : Type} [DecidableEq κ] : List (κ × α) → κ → Option α
  | [], _ => none
  | (k', v) :: rest, k => if k' = k then some v else aget rest k

/-- Association list update by prepending a binding. -/
def aset {κ : Type} {α : Type} (m : List (κ × α)) (k : κ) (v : α) : List (κ × α) :=
  (k, v) :: m

/-- Association list deletion of every binding of the key. -/
def adel {κ : Type} {α : Type} [DecidableEq κ] : List (κ × α) → κ → List (κ × α)
  | [], _ => []
  | (k', v) :: rest, k => if k' = k then adel rest k else (k', v) :: adel rest k

/-- Structured store keys, mirroring the string key prefixes used in
src/config/redis.js (session:, active_session:, refresh_token:,
user_refresh_tokens:, failed_attempts:, account_lock:,
session_refresh:). -/
inductive RKey where
  | session (sessionId : String)
  | activeSession (userId : String)
  | refreshToken (token : String)
  | userRefreshTokens (userId : String)
  | failedAttempts (identifier : String)
  | accountLock (identifier : String)
  | sessionRefresh (sessionId : String)
deriving DecidableEq, Repr

/-- Session record stored at session:<id> (redis.js createSession). -/
structure SessionData where
  userId : String
  sessionId : String
  createdAt : Nat
  email : String
  firstName : String
  lastName : String
deriving DecidableEq, Repr

/-- Refresh token record stored at refresh_token:<token>
(redis.js storeRefreshToken). -/
structure TokenData where
  userId : String
  sessionId : String
  createdAt : Nat
deriving DecidableEq, Repr

/-- Values held by string keys of the store. `num` stands for a decimal
string holding a natural number (counters, timestamps). -/
inductive RVal where
  | str (s : String)
  | num (n : Nat)
  | sess (d : SessionData)
  | tok (d : TokenData)
deriving DecidableEq, Repr

/-- State of the external key-value store: string keys, per-key TTLs
(seconds), set keys, and the readiness flag consulted by the fail-open
wrapper safeRedisOp. -/
structure Store where
  kv : List (RKey × RVal)
  ttl : List (RKey × Nat)
  sets : List (RKey × List String)
  ready : Bool
deriving Repr

/-- GET on a string key. -/
def Store.get (st : Store) (k : RKey) : Option RVal := aget st.kv k

/-- SETEX: write value and arm TTL. -/
def Store.setex (st : Store) (k : RKey) (t : Nat) (v : RVal) : Store :=
  { st with kv := aset st.kv k v, ttl := aset st.ttl k t }

/-- SET without expiry: write value and drop any TTL. -/
def Store.set (st : Store) (k : RKey) (v : RVal) : Store :=
  { st with kv := aset st.kv k v, ttl := adel st.ttl k }

/-- DEL: remove the key from every table. -/
def Store.del (st : Store) (k : RKey) : Store :=
  { st with kv := adel st.kv k, ttl := adel st.ttl k, sets := adel st.sets k }

/-- EXISTS over string and set keys, as used by EXPIRE. -/
def Store.keyExists (st : Store) (k : RKey) : Bool :=
  (aget st.kv k).isSome || (aget st.sets k).isSome

/-- EXPIRE: re-arm the TTL of an existing key; no-op on a missing key. -/
def Store.expire (st : Store) (k : RKey) (t : Nat) : Store :=
  if st.keyExists k then { st with ttl := aset st.ttl k t } else st

/-- SADD of one member. -/
def Store.sadd (st : Store) (k : RKey) (m : String) : Store :=
  match aget st.sets k with
  | some ms => if m ∈ ms then st else { st with sets := aset st.sets k (m :: ms) }
  | none => { st with sets := aset st.sets k [m] }

/-- SREM of one member (removal of the emptied set key is not modelled;
no caller observes the difference). -/
def Store.srem (st : Store) (k : RKey) (m : String) : Store :=
  match aget st.sets k with
  | some ms => { st with sets := aset st.sets k (ms.filter (fun x => x ≠ m)) }
  | none => st

/-- SMEMBERS. -/
def Store.smembers (st : Store) (k : RKey) : List String :=
  (aget st.sets k).getD []

/-- INCR: treat the stored value as an integer (0 when absent or not
numeric), add one, store it back, and return the new value. -/
def Store.incr (st : Store) (k : RKey) : Nat × Store :=
  let cur : Nat :=
    match aget st.kv k with
    | some (RVal.num n) => n
    | _ => 0
  (cur + 1, { st with kv := aset st.kv k (RVal.num (cur + 1)) })

/-- Default SESSION_TIMEOUT of redis.js (seconds). -/
def SESSION_TIMEOUT : Nat := 300

/-- Default REFRESH_TOKEN_EXPIRE of redis.js (seconds). -/
def REFRESH_TOKEN_EXPIRE : Nat := 604800

/-- Default LOCKOUT_TIME of redis.js (seconds). -/
def LOCKOUT_TIME : Nat := 900

/-- Default SESSION_REFRESH_THROTTLE of redis.js (seconds). -/
def SESSION_REFRESH_THROTTLE : Nat := 30

/-- Result object of sessionService.createSession; the same object is
the call-site fallback when the store is not ready. -/
structure CreateSessionResult where
  sessionId : String
  previousDeviceInfo : Option String
  wasLoggedOutFromOtherDevice : Bool
deriving DecidableEq, Repr

/-- Fields of the userData argument of createSession as passed by the
login route. -/
structure SessionUserData where
  email : String
  firstName : String
  lastName : String
deriving DecidableEq, Repr

/-- Translation of sessionService.createSession (redis.js 83-97):
SETEX the session record with the session timeout, then SET the
active_session pointer (no TTL) to this sessionId. -/
def sessionService.createSession (st : Store) (now : Nat) (userId sessionId : String)
    (userData : SessionUserData) : CreateSessionResult × Store :=
  if st.ready then
    let sessionData : SessionData :=
      { userId := userId, sessionId := sessionId, createdAt := now,
        email := userData.email, firstName := userData.firstName,
        lastName := userData.lastName }
    let st := st.setex (RKey.session sessionId) SESSION_TIMEOUT (RVal.sess sessionData)
    let st := st.set (RKey.activeSession userId) (RVal.str sessionId)
    (⟨sessionId, none, false⟩, st)
  else
    (⟨sessionId, none, false⟩, st)

/-- Translation of sessionService.getSession (redis.js 99-104). -/
def sessionService.getSession (st : Store) (sessionId : String) : Option SessionData :=
  if st.ready then
    match st.get (RKey.session sessionId) with
    | some (RVal.sess d) => some d
    | _ => none
  else none

/-- Translation of sessionService.deleteSession (redis.js 106-114):
read the record, and when present delete it and the active_session
pointer of its userId. -/
def sessionService.deleteSession (st : Store) (sessionId : String) : Store :=
  if st.ready then
    match sessionService.getSession st sessionId with
    | some d => (st.del (RKey.session sessionId)).del (RKey.activeSession d.userId)
    | none => st
  else st

/-- Translation of sessionService.storeRefreshToken (redis.js 116-127):
SETEX the token record, SADD it to the per-user token set, and re-arm
the TTL of the set. -/
def sessionService.storeRefreshToken (st : Store) (now : Nat)
    (refreshToken userId sessionId : String) : Store :=
  if st.ready then
    let tokenData : TokenData := { userId := userId, sessionId := sessionId, createdAt := now }
    let st := st.setex (RKey.refreshToken refreshToken) REFRESH_TOKEN_EXPIRE (RVal.tok tokenData)
    let st := st.sadd (RKey.userRefreshTokens userId) refreshToken
    st.expire (RKey.userRefreshTokens userId) REFRESH_TOKEN_EXPIRE
  else st

/-- Translation of sessionService.getRefreshToken (redis.js 129-134). -/
def sessionService.getRefreshToken (st : Store) (refreshToken : String) : Option TokenData :=
  if st.ready then
    match st.get (RKey.refreshToken refreshToken) with
    | some (RVal.tok d) => some d
    | _ => none
  else none

/-- Translation of sessionService.deleteRefreshToken (redis.js 136-147):
read the token record to learn its userId, DEL the record, and when the
record was present SREM the token from that user token set. -/
def sessionService.deleteRefreshToken (st : Store) (refreshToken : String) : Store :=
  if st.ready then
    let tokenData := sessionService.getRefreshToken st refreshToken
    let st := st.del (RKey.refreshToken refreshToken)
    match tokenData with
    | some d => st.srem (RKey.userRefreshTokens d.userId) refreshToken
    | none => st
  else st

/-- Translation of sessionService.deleteAllUserSessions (redis.js
149-157): read the active_session pointer, DEL the pointed-to session
record when the pointer is set, then DEL the pointer itself. -/
def sessionService.deleteAllUserSessions (st : Store) (userId : String) : Store :=
  if st.ready then
    let st1 :=
      match st.get (RKey.activeSession userId) with
      | some (RVal.str sid) => st.del (RKey.session sid)
      | _ => st
    st1.del (RKey.activeSession userId)
  else st

/-- Translation of sessionService.refreshSession (redis.js 159-184).
When force is false, a marker key session_refresh:<id> holding the
time of the last refresh throttles the call: within the throttle
window the call returns true without touching the session TTL;
otherwise the marker is re-written and the session TTL is re-armed.
With force the TTL is re-armed unconditionally. Returns false only as
the fail-open fallback. -/
def sessionService.refreshSession (st : Store) (now : Nat) (sessionId : String)
    (force : Bool := false) : Bool × Store :=
  if st.ready then
    if force then
      (true, st.expire (RKey.session sessionId) SESSION_TIMEOUT)
    else
      let proceed : Bool :=
        match st.get (RKey.sessionRefresh sessionId) with
        | some (RVal.num lastRefresh) => decide (SESSION_REFRESH_THROTTLE * 1000 ≤ now - lastRefresh)
        | _ => true
      if proceed then
        let st := st.setex (RKey.sessionRefresh sessionId) SESSION_REFRESH_THROTTLE (RVal.num now)
        (true, st.expire (RKey.session sessionId) SESSION_TIMEOUT)
      else
        (true, st)
  else (false, st)

/-- Translation of sessionService.deleteAllUserRefreshTokens (redis.js
186-205): SMEMBERS of the per-user token set, pipelined DEL of every
token record, then DEL of the set itself. -/
def sessionService.deleteAllUserRefreshTokens (st : Store) (userId : String) : Store :=
  if st.ready then
    let refreshTokens := st.smembers (RKey.userRefreshTokens userId)
    if refreshTokens.isEmpty then st
    else
      let st := refreshTokens.foldl (fun acc tk => acc.del (RKey.refreshToken tk)) st
      st.del (RKey.userRefreshTokens userId)
  else st

/-- Translation of failedAttemptsService.incrementFailedAttempts
(redis.js 210-216): INCR the counter, re-arm its TTL to the lockout
window, return the new count; fallback 1. -/
def failedAttemptsService.incrementFailedAttempts (st : Store) (identifier : String) :
    Nat × Store :=
  if st.ready then
    let (attempts, st) := st.incr (RKey.failedAttempts identifier)
    (attempts, st.expire (RKey.failedAttempts identifier) LOCKOUT_TIME)
  else (1, st)

/-- Translation of failedAttemptsService.getFailedAttempts (redis.js
218-223); fallback 0. -/
def failedAttemptsService.getFailedAttempts (st : Store) (identifier : String) : Nat :=
  if st.ready then
    match st.get (RKey.failedAttempts identifier) with
    | some (RVal.num n) => n
    | _ => 0
  else 0

/-- Translation of failedAttemptsService.clearFailedAttempts (redis.js
225-229). -/
def failedAttemptsService.clearFailedAttempts (st : Store) (identifier : String) : Store :=
  if st.ready then st.del (RKey.failedAttempts identifier) else st

/-- Translation of failedAttemptsService.lockAccount (redis.js
231-235): SETEX the lock flag for the lockout window. -/
def failedAttemptsService.lockAccount (st : Store) (identifier : String) : Store :=
  if st.ready then
    st.setex (RKey.accountLock identifier) LOCKOUT_TIME (RVal.str "locked")
  else st

/-- Translation of failedAttemptsService.isAccountLocked (redis.js
237-242): truthiness of the lock key; fallback false. -/
def failedAttemptsService.isAccountLocked (st : Store) (identifier : String) : Bool :=
  if st.ready then (st.get (RKey.accountLock identifier)).isSome else false

/-- Device information assembled by the login route from the parsed
user agent (auth.js 103-120); nested browser/os/device objects are
flattened into prefixed fields. -/
structure DeviceInfo where
  browserName : String
  browserVersion : String
  osName : String
  osVersion : String
  deviceModel : String
  deviceType : String
  deviceVendor : String
  ip : String
  userAgent : String
  deviceToken : Option String
deriving DecidableEq, Repr

/-- Entry of the per-user device list (User.js schema, devices array). -/
structure Device where
  deviceId : String
  browserName : String
  browserVersion : String
  osName : String
  osVersion : String
  deviceModel : String
  deviceType : String
  deviceVendor : String
  ip : String
  userAgent : String
  deviceToken : Option String
  firstSeen : Nat
  lastSeen : Nat
  loginCount : Nat
  isActive : Bool
deriving DecidableEq, Repr

/-- Fingerprint input string of generateDeviceId (User.js 160):
browser name, OS name, device type and device vendor joined by dashes;
versions, IP, user agent and push token are not part of it. -/
def deviceString (info : DeviceInfo) : String :=
  info.browserName ++ "-" ++ info.osName ++ "-" ++ info.deviceType ++ "-" ++ info.deviceVendor

/-- Translation of userSchema.methods.generateDeviceId (User.js
158-162); the md5 hex digest of the external crypto library enters as
the function parameter md5hex. -/
def generateDeviceId (md5hex : String → String) (info : DeviceInfo) : String :=
  md5hex (deviceString info)

/-- Apply f to the first list element satisfying p, as the JS findIndex
plus in-place mutation does. -/
def updateFirst {α : Type} (p : α → Bool) (f : α → α) : List α → List α
  | [] => []
  | x :: rest => if p x then f x :: rest else x :: updateFirst p f rest

/-- Comparator of the two device sorts in User.js and auth.js:
descending by lastSeen. -/
def byLastSeenDesc (a b : Device) : Bool := decide (b.lastSeen ≤ a.lastSeen)

/-- Fresh device entry appended by updateDeviceInfo (User.js 182-196). -/
def newDeviceEntry (deviceId : String) (info : DeviceInfo) (now : Nat) : Device :=
  { deviceId := deviceId, browserName := info.browserName,
    browserVersion := info.browserVersion, osName := info.osName,
    osVersion := info.osVersion, deviceModel := info.deviceModel,
    deviceType := info.deviceType, deviceVendor := info.deviceVendor,
    ip := info.ip, userAgent := info.userAgent, deviceToken := info.deviceToken,
    firstSeen := now, lastSeen := now, loginCount := 1, isActive := true }

/-- Translation of userSchema.methods.updateDeviceInfo (User.js
165-218) restricted to the device list: when a device with this
fingerprint exists, bump lastSeen, increment loginCount, refresh the
IP and push token and re-activate it; otherwise append a new entry,
and when the list then exceeds 10 entries sort it descending by
lastSeen and keep the first 10. Returns the fingerprint and the new
list. -/
def updateDeviceInfo (md5hex : String → String) (devices : List Device)
    (info : DeviceInfo) (now : Nat) : String × List Device :=
  let deviceId := generateDeviceId md5hex info
  if devices.any (fun d => d.deviceId == deviceId) then
    (deviceId,
      updateFirst (fun d => d.deviceId == deviceId)
        (fun d =>
          { d with lastSeen := now, loginCount := d.loginCount + 1,
                   ip := info.ip,
                   deviceToken := match info.deviceToken with
                     | some tkn => some tkn
                     | none => d.deviceToken,
                   isActive := true })
        devices)
  else
    let devices := devices ++ [newDeviceEntry deviceId info now]
    if devices.length > 10 then
      (deviceId, (devices.mergeSort byLastSeenDesc).take 10)
    else
      (deviceId, devices)

/-- Translation of userSchema.methods.getDeviceHistory (User.js
221-223): the device list sorted descending by lastSeen. -/
def getDeviceHistory (devices : List Device) : List Device :=
  devices.mergeSort byLastSeenDesc

/-- Translation of userSchema.methods.deactivateDevice (User.js
226-233): find the first device with this id regardless of its current
state; when present mark it inactive and return true, otherwise return
false. -/
def deactivateDevice (devices : List Device) (deviceId : String) : Bool × List Device :=
  match devices with
  | [] => (false, [])
  | d :: rest =>
    if d.deviceId = deviceId then (true, { d with isActive := false } :: rest)
    else
      let (found, rest') := deactivateDevice rest deviceId
      (found, d :: rest')

/-- Durable user entity fields consulted by the login route (mongo
User model); the password hash itself stays behind the bcrypt compare
collaborator. -/
structure DbUser where
  userId : String
  email : String
  firstName : String
  lastName : String
  isActive : Bool
  devices : List Device
deriving DecidableEq, Repr

/-- Request-scoped values produced by external collaborators during a
login: the clock, crypto.randomUUID for the session id, and the two
jwt.sign results of generateTokens. -/
structure LoginTicket where
  now : Nat
  sessionId : String
  accessToken : String
  refreshToken : String
deriving DecidableEq, Repr

/-- Environment of one login attempt: the identifier email:ip, the
result of User.findByEmail, the result of user.comparePassword on the
submitted password, the parsed device info, and the md5 digest. -/
structure LoginEnv where
  identifier : String
  findUser : Option DbUser
  passwordValid : Bool
  deviceInfo : DeviceInfo
  md5hex : String → String

/-- Error classes thrown by the login route (utils/errors):
AuthenticationError maps to 401, TooManyRequestsError to 429. -/
inductive ErrKind where
  | authentication
  | tooManyRequests
deriving DecidableEq, Repr

/-- Previous-device summary of the deviceLogout field of the login
response (auth.js 189-201). -/
structure DeviceLogoutInfo where
  browserName : String
  osName : String
  deviceType : String
  deviceId : String
  lastSeen : Nat
deriving DecidableEq, Repr

/-- Success payload of the login route (auth.js 175-201). -/
structure LoginResponse where
  accessToken : String
  refreshToken : String
  userId : String
  deviceId : String
  isNewDevice : Bool
  totalDevices : Nat
  deviceLogout : Option DeviceLogoutInfo
deriving DecidableEq, Repr

/-- Caller-visible outcome of a login attempt: an error of some class
with its message, or the success payload. -/
inductive LoginResult where
  | err (kind : ErrKind) (message : String)
  | ok (resp : LoginResponse)
deriving DecidableEq, Repr

/-- Translation of the login route (auth.js 60-204), after input
validation: lock check, credential check with failed-attempt counting
and lockout, active-account check, counter clear, device fingerprint
and prior-device snapshot, eviction of all sessions and refresh tokens
of the user, deactivation of other devices, session creation, token
issue and storage, device-list update, and the response. -/
def login (env : LoginEnv) (t : LoginTicket) (st : Store) : LoginResult × Store :=
  if failedAttemptsService.isAccountLocked st env.identifier then
    (LoginResult.err ErrKind.tooManyRequests
      "Account temporarily locked due to multiple failed attempts. Please try again later.", st)
  else
    match env.findUser with
    | none =>
      let (_, st) := failedAttemptsService.incrementFailedAttempts st env.identifier
      (LoginResult.err ErrKind.authentication "Invalid credentials", st)
    | some user =>
      if !env.passwordValid then
        let (attempts, st) := failedAttemptsService.incrementFailedAttempts st env.identifier
        if attempts ≥ 5 then
          let st := failedAttemptsService.lockAccount st env.identifier
          (LoginResult.err ErrKind.tooManyRequests
            "Account locked due to multiple failed attempts. Please try again in 15 minutes.", st)
        else
          (LoginResult.err ErrKind.authentication
            ("Invalid credentials. " ++ toString (5 - attempts) ++ " attempts remaining."), st)
      else if !user.isActive then
        (LoginResult.err ErrKind.authentication
          "Account is deactivated. Please contact support.", st)
      else
        let st := failedAttemptsService.clearFailedAttempts st env.identifier
        let currentDeviceId := generateDeviceId env.md5hex env.deviceInfo
        let isNewDevice := !(user.devices.any (fun d => d.deviceId == currentDeviceId))
        let activeDevices :=
          (user.devices.filter (fun d => d.isActive && d.deviceId != currentDeviceId)).mergeSort
            byLastSeenDesc
        let previousDeviceInfo := activeDevices.head?
        let st := sessionService.deleteAllUserSessions st user.userId
        let st := sessionService.deleteAllUserRefreshTokens st user.userId
        let deactivated := user.devices.map
          (fun d => if d.deviceId == currentDeviceId then d else { d with isActive := false })
        let user := { user with devices := deactivated }
        let (_, st) := sessionService.createSession st t.now user.userId t.sessionId
          ⟨user.email, user.firstName, user.lastName⟩
        let st := sessionService.storeRefreshToken st t.now t.refreshToken user.userId t.sessionId
        let (updatedDeviceId, devices) :=
          updateDeviceInfo env.md5hex user.devices env.deviceInfo t.now
        (LoginResult.ok
          { accessToken := t.accessToken, refreshToken := t.refreshToken,
            userId := user.userId, deviceId := updatedDeviceId,
            isNewDevice := isNewDevice, totalDevices := devices.length,
            deviceLogout := previousDeviceInfo.map (fun d =>
              { browserName := d.browserName, osName := d.osName,
                deviceType := d.deviceType, deviceId := d.deviceId,
                lastSeen := d.lastSeen }) }, st)

/-- Outcomes of the refresh-token route (auth.js 494-572), one per
response site. -/
inductive RefreshOutcome where
  | invalidToken
  | tokenNotFound
  | sessionExpired
  | userNotFoundOrInactive
  | ok (accessToken : String)
deriving DecidableEq, Repr

/-- Translation of the refresh-token route (auth.js 494-572), after
input validation: jwt verification (decoded is none when the signature
check throws), token-record lookup, session lookup via the decoded
sessionId with token cleanup on a missing session, user lookup with
token cleanup on a missing or inactive user, then a new access token
and a session refresh. -/
def refreshTokenRoute (findUserById : String → Option DbUser)
    (decoded : Option (String × String)) (newAccessToken : String) (now : Nat)
    (tok : String) (st : Store) : RefreshOutcome × Store :=
  match decoded with
  | none => (RefreshOutcome.invalidToken, st)
  | some (userId, sessionId) =>
    match sessionService.getRefreshToken st tok with
    | none => (RefreshOutcome.tokenNotFound, st)
    | some _ =>
      match sessionService.getSession st sessionId with
      | none => (RefreshOutcome.sessionExpired, sessionService.deleteRefreshToken st tok)
      | some _ =>
        match findUserById userId with
        | none => (RefreshOutcome.userNotFoundOrInactive, sessionService.deleteRefreshToken st tok)
        | some user =>
          if !user.isActive then
            (RefreshOutcome.userNotFoundOrInactive, sessionService.deleteRefreshToken st tok)
          else
            let (_, st) := sessionService.refreshSession st now sessionId
            (RefreshOutcome.ok newAccessToken, st)

/-- Names of the methods the sessionService object of redis.js
defines (its keys, redis.js 82-206). -/
def sessionServiceMethods : List String :=
  ["createSession", "getSession", "deleteSession", "storeRefreshToken",
   "getRefreshToken", "deleteRefreshToken", "deleteAllUserSessions",
   "refreshSession", "deleteAllUserRefreshTokens"]

/-- Observable outcome of the session-status route. -/
inductive SessionStatusResult where
  | okTimeLeft (sessionId : String)
  | serverError (message : String)
deriving DecidableEq, Repr

/-- Translation of the session-status route (auth.js 258-274): it
calls sessionService.getSessionTimeLeft; in JS, reading a property the
object does not define yields undefined and calling it throws a
TypeError, which the catch block turns into the 500 response. The
success branch is reachable only if the service defined the method. -/
def sessionStatusRoute (sessionId : String) : SessionStatusResult :=
  if sessionServiceMethods.contains "getSessionTimeLeft" then
    SessionStatusResult.okTimeLeft sessionId
  else
    SessionStatusResult.serverError "Failed to get session status"

/-- Concrete fixtures for the witness and counterexample theorems:
an empty reachable store, an unreachable store, device inputs, a user
record and login environments. -/
def emptyReadyStore : Store := ⟨[], [], [], true⟩

/-- Store whose readiness probe fails: every safeRedisOp call takes
its fallback. -/
def downStore : Store := ⟨[], [], [], false⟩

/-- Sample parsed device info. -/
def exDeviceInfo : DeviceInfo :=
  ⟨"Chrome", "120", "Mac OS", "14", "MacBook", "desktop", "Apple", "1.2.3.4", "ua-1", none⟩

/-- Device info agreeing with exDeviceInfo on browser name, OS name,
device type and vendor, differing in versions, IP, user agent and push
token. -/
def exDeviceInfo2 : DeviceInfo :=
  ⟨"Chrome", "121", "Mac OS", "15", "MacBook", "desktop", "Apple", "9.9.9.9", "ua-2", some "push"⟩

/-- Sample active user with an empty device list. -/
def exUser : DbUser := ⟨"u1", "a@example.com", "Ada", "L", true, []⟩

/-- Identifier email:ip of the sample requests. -/
def exIdent : String := "a@example.com:1.2.3.4"

/-- Login environment with correct credentials. -/
def exEnvGood : LoginEnv := ⟨exIdent, some exUser, true, exDeviceInfo, id⟩

/-- Login environment with an existing user and a wrong password. -/
def exEnvWrongPw : LoginEnv := ⟨exIdent, some exUser, false, exDeviceInfo, id⟩

/-- Login environment for a nonexistent email. -/
def exEnvNoUser : LoginEnv := ⟨exIdent, none, false, exDeviceInfo, id⟩

/-- Request-scoped ticket number i. -/
def exTicket (i : Nat) : LoginTicket :=
  ⟨1000 + i, "sid" ++ toString i, "access" ++ toString i, "refresh" ++ toString i⟩

/-- Five consecutive login attempts under one environment, starting
from the empty reachable store. -/
def exFiveAttempts (env : LoginEnv) : LoginResult × Store :=
  let r1 := login env (exTicket 1) emptyReadyStore
  let r2 := login env (exTicket 2) r1.2
  let r3 := login env (exTicket 3) r2.2
  let r4 := login env (exTicket 4) r3.2
  login env (exTicket 5) r4.2

/-- Sample device list entry, currently active. -/
def exDevice : Device :=
  ⟨"d1", "Chrome", "120", "Mac OS", "14", "MacBook", "desktop", "Apple",
   "1.2.3.4", "ua-1", none, 5, 10, 1, true⟩

/-- Device entry number i, with lastSeen i. -/
def exDeviceN (i : Nat) : Device :=
  ⟨"dev" ++ toString i, "b", "1", "o", "1", "m", "t", "v", "ip", "ua", none, i, i, 1, true⟩

/-- Ten devices with lastSeen 1..10. -/
def exTenDevices : List Device := (List.range 10).map (fun i => exDeviceN (i + 1))

/-- Device info whose fingerprint is fresh relative to exTenDevices. -/
def exNewInfo : DeviceInfo :=
  ⟨"NewB", "9", "NewO", "9", "m", "t2", "v2", "ip9", "ua9", none⟩

/-- Store holding a failed-attempt counter at c for exIdent. -/
def exStoreC (c : Nat) : Store :=
  ⟨[(RKey.failedAttempts exIdent, RVal.num c)], [], [], true⟩

/-- Store holding one session record (TTL 10) and a refresh marker
recorded at millisecond 100000. -/
def exSessStore : Store :=
  ⟨[(RKey.session "s1", RVal.sess ⟨"u1", "s1", 0, "a@example.com", "Ada", "L"⟩),
    (RKey.sessionRefresh "s1", RVal.num 100000)],
   [(RKey.session "s1", 10)], [], true⟩

/-- Store holding one refresh token record for user u1 and its
per-user token set, with no session record. -/
def exTokStore : Store :=
  ⟨[(RKey.refreshToken "r1", RVal.tok ⟨"u1", "s1", 0⟩)], [],
   [(RKey.userRefreshTokens "u1", ["r1"])], true⟩

@[simp] theorem aget_nil {κ α : Type} [DecidableEq κ] (k : κ) :
    aget ([] : List (κ × α)) k = none := rfl

@[simp] theorem aget_aset_same {κ α : Type} [DecidableEq κ]
    (m : List (κ × α)) (k : κ) (v : α) : aget (aset m k v) k = some v := by
  simp [aget, aset]

@[simp] theorem aget_aset_ne {κ α : Type} [DecidableEq κ]
    (m : List (κ × α)) (k k' : κ) (v : α) (h : k ≠ k') :
    aget (aset m k v) k' = aget m k' := by
  simp [aget, aset, h]

@[simp] theorem aget_adel_same {κ α : Type} [DecidableEq κ]
    (m : List (κ × α)) (k : κ) : aget (adel m k) k = none := by
  induction m with
  | nil => simp [adel]
  | cons p rest ih =>
    obtain ⟨k', v⟩ := p
    by_cases h : k' = k
    · simpa [adel, h] using ih
    · simp [adel, aget, h, ih]

@[simp] theorem aget_adel_ne {κ α : Type} [DecidableEq κ]
    (m : List (κ × α)) (k k' : κ) (h : k ≠ k') :
    aget (adel m k) k' = aget m k' := by
  induction m with
  | nil => simp [adel]
  | cons p rest ih =>
    obtain ⟨k'', v⟩ := p
    by_cases h2 : k'' = k
    · subst h2
      simp [adel, aget, h, ih]
    · by_cases h3 : k'' = k'
      · simp [adel, aget, h2, h3, Ne.symm h, ih]
      · simp [adel, aget, h2, h3, ih]

@[simp] theorem ready_setex (st : Store) (k : RKey) (t : Nat) (v : RVal) :
    (st.setex k t v).ready = st.ready := rfl

@[simp] theorem ready_set (st : Store) (k : RKey) (v : RVal) :
    (st.set k v).ready = st.ready := rfl

@[simp] theorem ready_del (st : Store) (k : RKey) :
    (st.del k).ready = st.ready := rfl

@[simp] theorem ready_expire (st : Store) (k : RKey) (t : Nat) :
    (st.expire k t).ready = st.ready := by
  unfold Store.expire
  split <;> rfl

@[simp] theorem ready_sadd (st : Store) (k : RKey) (m : String) :
    (st.sadd k m).ready = st.ready := by
  unfold Store.sadd
  split
  · split <;> rfl
  · rfl

@[simp] theorem ready_srem (st : Store) (k : RKey) (m : String) :
    (st.srem k m).ready = st.ready := by
  unfold Store.srem
  split <;> rfl

@[simp] theorem ready_incr (st : Store) (k : RKey) :
    (st.incr k).2.ready = st.ready := rfl

@[simp] theorem get_setex_same (st : Store) (k : RKey) (t : Nat) (v : RVal) :
    (st.setex k t v).get k = some v := by
  simp [Store.get, Store.setex]

@[simp] theorem get_setex_ne (st : Store) (k k' : RKey) (t : Nat) (v : RVal)
    (h : k ≠ k') : (st.setex k t v).get k' = st.get k' := by
  simp [Store.get, Store.setex, h]

@[simp] theorem get_set_same (st : Store) (k : RKey) (v : RVal) :
    (st.set k v).get k = some v := by
  simp [Store.get, Store.set]

@[simp] theorem get_set_ne (st : Store) (k k' : RKey) (v : RVal)
    (h : k ≠ k') : (st.set k v).get k' = st.get k' := by
  simp [Store.get, Store.set, h]

@[simp] theorem get_del_same (st : Store) (k : RKey) :
    (st.del k).get k = none := by
  simp [Store.get, Store.del]

@[simp] theorem get_del_ne (st : Store) (k k' : RKey) (h : k ≠ k') :
    (st.del k).get k' = st.get k' := by
  simp [Store.get, Store.del, h]

@[simp] theorem get_expire (st : Store) (k k' : RKey) (t : Nat) :
    (st.expire k t).get k' = st.get k' := by
  unfold Store.expire
  split <;> rfl

@[simp] theorem get_sadd (st : Store) (k k' : RKey) (m : String) :
    (st.sadd k m).get k' = st.get k' := by
  unfold Store.sadd
  split
  · split <;> rfl
  · rfl

@[simp] theorem get_srem (st : Store) (k k' : RKey) (m : String) :
    (st.srem k m).get k' = st.get k' := by
  unfold Store.srem
  split <;> rfl

@[simp] theorem ready_foldl_del (ts : List String) (st : Store) :
    (ts.foldl (fun acc tk => acc.del (RKey.refreshToken tk)) st).ready = st.ready := by
  induction ts generalizing st with
  | nil => rfl
  | cons t ts ih => simpa using ih (st.del (RKey.refreshToken t))

theorem get_foldl_del (ts : List String) (st : Store) (k : RKey)
    (h : ∀ s, k ≠ RKey.refreshToken s) :
    (ts.foldl (fun acc tk => acc.del (RKey.refreshToken tk)) st).get k = st.get k := by
  induction ts generalizing st with
  | nil => rfl
  | cons t ts ih =>
    rw [List.foldl_cons, ih]
    exact get_del_ne st _ k (Ne.symm (h t))

@[simp] theorem ready_clearFailedAttempts (st : Store) (identifier : String) :
    (failedAttemptsService.clearFailedAttempts st identifier).ready = st.ready := by
  unfold failedAttemptsService.clearFailedAttempts
  split <;> simp

@[simp] theorem ready_lockAccount (st : Store) (identifier : String) :
    (failedAttemptsService.lockAccount st identifier).ready = st.ready := by
  unfold failedAttemptsService.lockAccount
  split <;> simp

@[simp] theorem ready_incrementFailedAttempts (st : Store) (identifier : String) :
    (failedAttemptsService.incrementFailedAttempts st identifier).2.ready = st.ready := by
  unfold failedAttemptsService.incrementFailedAttempts
  split <;> simp [Store.incr]

@[simp] theorem ready_deleteAllUserSessions (st : Store) (userId : String) :
    (sessionService.deleteAllUserSessions st userId).ready = st.ready := by
  unfold sessionService.deleteAllUserSessions
  split
  · split <;> simp
  · rfl

@[simp] theorem ready_deleteAllUserRefreshTokens (st : Store) (userId : String) :
    (sessionService.deleteAllUserRefreshTokens st userId).ready = st.ready := by
  unfold sessionService.deleteAllUserRefreshTokens
  split
  · dsimp only
    split
    · rfl
    · simp
  · rfl

@[simp] theorem ready_createSession (st : Store) (now : Nat) (userId sessionId : String)
    (ud : SessionUserData) :
    (sessionService.createSession st now userId sessionId ud).2.ready = st.ready := by
  unfold sessionService.createSession
  split <;> simp

@[simp] theorem ready_storeRefreshToken (st : Store) (now : Nat)
    (refreshToken userId sessionId : String) :
    (sessionService.storeRefreshToken st now refreshToken userId sessionId).ready = st.ready := by
  unfold sessionService.storeRefreshToken
  split <;> simp

@[simp] theorem ready_deleteRefreshToken (st : Store) (refreshToken : String) :
    (sessionService.deleteRefreshToken st refreshToken).ready = st.ready := by
  unfold sessionService.deleteRefreshToken
  split
  · dsimp only
    split <;> simp
  · rfl

theorem get_clearFailedAttempts_ne (st : Store) (identifier : String) (k : RKey)
    (h : k ≠ RKey.failedAttempts identifier) :
    (failedAttemptsService.clearFailedAttempts st identifier).get k = st.get k := by
  unfold failedAttemptsService.clearFailedAttempts
  split
  · exact get_del_ne st _ k (Ne.symm h)
  · rfl

theorem get_deleteAllUserSessions_pointer (st : Store) (userId : String)
    (hr : st.ready = true) :
    (sessionService.deleteAllUserSessions st userId).get (RKey.activeSession userId) = none := by
  unfold sessionService.deleteAllUserSessions
  rw [hr]
  simp only [if_true]
  exact get_del_same _ _

theorem get_deleteAllUserSessions_ne (st : Store) (userId : String) (k : RKey)
    (hp : k ≠ RKey.activeSession userId) (hs : ∀ s, k ≠ RKey.session s) :
    (sessionService.deleteAllUserSessions st userId).get k = st.get k := by
  unfold sessionService.deleteAllUserSessions
  split
  · split
    · rename_i sid heq
      rw [get_del_ne _ _ _ (Ne.symm hp), get_del_ne _ _ _ (Ne.symm (hs sid))]
    · exact get_del_ne _ _ _ (Ne.symm hp)
  · rfl

theorem get_deleteAllUserSessions_pointed (st : Store) (userId x : String)
    (hr : st.ready = true) (hp : st.get (RKey.activeSession userId) = some (RVal.str x)) :
    (sessionService.deleteAllUserSessions st userId).get (RKey.session x) = none := by
  unfold sessionService.deleteAllUserSessions
  rw [hr]
  simp only [if_true, hp]
  rw [get_del_ne _ _ _ (by simp)]
  exact get_del_same _ _

theorem get_deleteAllUserRefreshTokens_ne (st : Store) (userId : String) (k : RKey)
    (ht : ∀ s, k ≠ RKey.refreshToken s) (hu : k ≠ RKey.userRefreshTokens userId) :
    (sessionService.deleteAllUserRefreshTokens st userId).get k = st.get k := by
  unfold sessionService.deleteAllUserRefreshTokens
  split
  · dsimp only
    split
    · rfl
    · rw [get_del_ne _ _ _ (Ne.symm hu), get_foldl_del _ _ _ ht]
  · rfl

theorem get_createSession_pointer (st : Store) (now : Nat) (userId sessionId : String)
    (ud : SessionUserData) (hr : st.ready = true) :
    (sessionService.createSession st now userId sessionId ud).2.get (RKey.activeSession userId)
      = some (RVal.str sessionId) := by
  unfold sessionService.createSession
  rw [hr]
  simp only [if_true]
  exact get_set_same _ _ _

theorem get_createSession_session (st : Store) (now : Nat) (userId sessionId : String)
    (ud : SessionUserData) (hr : st.ready = true) :
    (sessionService.createSession st now userId sessionId ud).2.get (RKey.session sessionId)
      = some (RVal.sess ⟨userId, sessionId, now, ud.email, ud.firstName, ud.lastName⟩) := by
  unfold sessionService.createSession
  rw [hr]
  simp only [if_true]
  rw [get_set_ne _ _ _ _ (by simp)]
  exact get_setex_same _ _ _ _

theorem get_createSession_ne (st : Store) (now : Nat) (userId sessionId : String)
    (ud : SessionUserData) (k : RKey)
    (hp : k ≠ RKey.activeSession userId) (hs : k ≠ RKey.session sessionId) :
    (sessionService.createSession st now userId sessionId ud).2.get k = st.get k := by
  unfold sessionService.createSession
  split
  · rw [get_set_ne _ _ _ _ (Ne.symm hp), get_setex_ne _ _ _ _ _ (Ne.symm hs)]
  · rfl

theorem get_storeRefreshToken_ne (st : Store) (now : Nat)
    (refreshToken userId sessionId : String) (k : RKey)
    (h : k ≠ RKey.refreshToken refreshToken) :
    (sessionService.storeRefreshToken st now refreshToken userId sessionId).get k = st.get k := by
  unfold sessionService.storeRefreshToken
  split
  · rw [get_expire, get_sadd, get_setex_ne _ _ _ _ _ (Ne.symm h)]
  · rfl

theorem get_storeRefreshToken_same (st : Store) (now : Nat)
    (refreshToken userId sessionId : String) (hr : st.ready = true) :
    (sessionService.storeRefreshToken st now refreshToken userId sessionId).get
      (RKey.refreshToken refreshToken)
      = some (RVal.tok ⟨userId, sessionId, now⟩) := by
  unfold sessionService.storeRefreshToken
  rw [hr]
  simp only [if_true]
  rw [get_expire, get_sadd]
  exact get_setex_same _ _ _ _

/-- Success path of the login route: under the conditions that make a
login succeed, the store goes through clear-counter, evict-sessions,
evict-refresh-tokens, create-session and store-refresh-token, and the
result is a success payload. -/
theorem login_success_run (env : LoginEnv) (t : LoginTicket) (st : Store) (u : DbUser)
    (hlock : failedAttemptsService.isAccountLocked st env.identifier = false)
    (hu : env.findUser = some u) (hpw : env.passwordValid = true)
    (ha : u.isActive = true) :
    (login env t st).2 =
      sessionService.storeRefreshToken
        (sessionService.createSession
          (sessionService.deleteAllUserRefreshTokens
            (sessionService.deleteAllUserSessions
              (failedAttemptsService.clearFailedAttempts st env.identifier) u.userId) u.userId)
          t.now u.userId t.sessionId ⟨u.email, u.firstName, u.lastName⟩).2
        t.now t.refreshToken u.userId t.sessionId
    ∧ ∃ r, (login env t st).1 = LoginResult.ok r := by
  unfold login
  rw [hlock, hu]
  simp only [Bool.false_eq_true, if_false, hpw, ha, Bool.not_true, if_true]
  exact ⟨trivial, ⟨_, rfl⟩⟩

/-- C1: after two sequential successful logins for the same user with
distinct session ids, the second login holds the active-session
pointer, and the first session record is no longer retrievable: the
pointer key holds the second sessionId and getSession on the first
sessionId returns none, so at most one session record is reachable
through the pointer. -/
theorem single_active_session_after_two_logins
    (env1 env2 : LoginEnv) (t1 t2 : LoginTicket) (st : Store) (u1 u2 : DbUser)
    (hr : st.ready = true)
    (hlock1 : failedAttemptsService.isAccountLocked st env1.identifier = false)
    (hu1 : env1.findUser = some u1) (hpw1 : env1.passwordValid = true)
    (ha1 : u1.isActive = true)
    (hlock2 : failedAttemptsService.isAccountLocked (login env1 t1 st).2 env2.identifier = false)
    (hu2 : env2.findUser = some u2) (hpw2 : env2.passwordValid = true)
    (ha2 : u2.isActive = true)
    (hid : u2.userId = u1.userId)
    (hsid : t1.sessionId ≠ t2.sessionId) :
    (∃ r1, (login env1 t1 st).1 = LoginResult.ok r1) ∧
    (∃ r2, (login env2 t2 (login env1 t1 st).2).1 = LoginResult.ok r2) ∧
    (login env2 t2 (login env1 t1 st).2).2.get (RKey.activeSession u1.userId)
      = some (RVal.str t2.sessionId) ∧
    sessionService.getSession (login env2 t2 (login env1 t1 st).2).2 t1.sessionId = none := by
  obtain ⟨hst1, hok1⟩ := login_success_run env1 t1 st u1 hlock1 hu1 hpw1 ha1
  obtain ⟨hst2, hok2⟩ :=
    login_success_run env2 t2 (login env1 t1 st).2 u2 hlock2 hu2 hpw2 ha2
  have h1ready : (login env1 t1 st).2.ready = true := by
    rw [hst1]; simp [hr]
  have h1ptr : (login env1 t1 st).2.get (RKey.activeSession u1.userId)
      = some (RVal.str t1.sessionId) := by
    rw [hst1]
    rw [get_storeRefreshToken_ne _ _ _ _ _ _ (by simp)]
    exact get_createSession_pointer _ _ _ _ _ (by simp [hr])
  have h2ready : (login env2 t2 (login env1 t1 st).2).2.ready = true := by
    rw [hst2]; simp [h1ready]
  have hsess2 : (login env2 t2 (login env1 t1 st).2).2.get (RKey.session t1.sessionId)
      = none := by
    rw [hst2, hid]
    rw [get_storeRefreshToken_ne _ _ _ _ _ _ (by simp)]
    rw [get_createSession_ne _ _ _ _ _ _ (by simp) (by simp [hsid])]
    rw [get_deleteAllUserRefreshTokens_ne _ _ _ (by simp) (by simp)]
    exact get_deleteAllUserSessions_pointed _ _ _ (by simp [h1ready])
      (by rw [get_clearFailedAttempts_ne _ _ _ (by simp)]; exact h1ptr)
  refine ⟨hok1, hok2, ?_, ?_⟩
  · rw [hst2, hid]
    rw [get_storeRefreshToken_ne _ _ _ _ _ _ (by simp)]
    exact get_createSession_pointer _ _ _ _ _ (by simp [h1ready])
  · unfold sessionService.getSession
    rw [h2ready, hsess2]
    rfl

/-- Witness for C1: two concrete logins for user u1 with session ids
sid1 and sid2; afterwards the pointer holds sid2 and getSession sid1
is none. -/
theorem single_active_session_after_two_logins_witness :
    (login exEnvGood (exTicket 2) (login exEnvGood (exTicket 1) emptyReadyStore).2).2.get
        (RKey.activeSession "u1") = some (RVal.str "sid2") ∧
    sessionService.getSession
      (login exEnvGood (exTicket 2) (login exEnvGood (exTicket 1) emptyReadyStore).2).2
      "sid1" = none := by
  have h := single_active_session_after_two_logins exEnvGood exEnvGood
    (exTicket 1) (exTicket 2) emptyReadyStore exUser exUser rfl (by decide) rfl rfl rfl
    (by decide) rfl rfl rfl rfl (by decide)
  exact ⟨h.2.2.1, h.2.2.2⟩

/-- Counterexample for C2: with correct credentials and the store
unreachable (readiness probe false), the login nevertheless succeeds
and returns access and refresh tokens, while the store keeps no
session record at all — no DependencyUnavailableError is raised
anywhere in the code. -/
theorem login_unbacked_token_counterexample :
    downStore.ready = false ∧
    (∃ r, (login exEnvGood (exTicket 1) downStore).1 = LoginResult.ok r ∧
      r.accessToken = "access1" ∧ r.refreshToken = "refresh1") ∧
    (login exEnvGood (exTicket 1) downStore).2.kv = [] := by
  exact ⟨rfl, ⟨_, rfl, rfl, rfl⟩, rfl⟩

/-- C2 as amended: for every login whose credentials verify while the
fast store is unreachable, every store operation takes its fail-open
fallback, the store is left unchanged (in particular no session record
backs the tokens), and the login still returns a success payload
carrying the issued access and refresh tokens. -/
theorem login_fail_open_unreachable_store (env : LoginEnv) (t : LoginTicket)
    (st : Store) (u : DbUser)
    (hdown : st.ready = false) (hu : env.findUser = some u)
    (hpw : env.passwordValid = true) (ha : u.isActive = true) :
    (login env t st).2 = st ∧
    ∃ r, (login env t st).1 = LoginResult.ok r ∧
      r.accessToken = t.accessToken ∧ r.refreshToken = t.refreshToken := by
  unfold login
  rw [hu]
  simp only [failedAttemptsService.isAccountLocked, hdown, Bool.false_eq_true, if_false,
    hpw, ha, Bool.not_true,
    failedAttemptsService.clearFailedAttempts,
    sessionService.deleteAllUserSessions,
    sessionService.deleteAllUserRefreshTokens,
    sessionService.createSession,
    sessionService.storeRefreshToken]
  exact ⟨trivial, ⟨_, rfl, rfl, rfl⟩⟩

/-- Witness for the amended C2 at a concrete unreachable store. -/
theorem login_fail_open_unreachable_store_witness :
    (login exEnvGood (exTicket 1) downStore).2 = downStore ∧
    ∃ r, (login exEnvGood (exTicket 1) downStore).1 = LoginResult.ok r ∧
      r.accessToken = (exTicket 1).accessToken ∧
      r.refreshToken = (exTicket 1).refreshToken :=
  login_fail_open_unreachable_store exEnvGood (exTicket 1) downStore exUser rfl rfl rfl rfl

/-- INCR leaves every other key unchanged. -/
theorem get_incr_ne (st : Store) (k k' : RKey) (h : k ≠ k') :
    (st.incr k).2.get k' = st.get k' := by
  simp only [Store.incr, Store.get]
  exact aget_aset_ne _ _ _ _ h

/-- Counterexample for C3: five consecutive failed attempts against a
nonexistent email. The counter reaches 5, yet the 5th outcome is the
plain invalid-credentials error and no lock is set — the absent-user
branch of the login route increments the counter but never checks the
threshold, contradicting the claim that the 5th consecutive failed
attempt (including attempts against a nonexistent email) yields a
lockout. -/
theorem lockout_missing_user_counterexample :
    (exFiveAttempts exEnvNoUser).1 =
      LoginResult.err ErrKind.authentication "Invalid credentials" ∧
    failedAttemptsService.getFailedAttempts (exFiveAttempts exEnvNoUser).2 exIdent = 5 ∧
    failedAttemptsService.isAccountLocked (exFiveAttempts exEnvNoUser).2 exIdent = false := by
  decide

/-- C3 as amended: both failure branches increment the counter, but
only the wrong-password branch checks the threshold. For every
identifier and user, five consecutive wrong-password attempts from a
clean store report decreasing attempts remaining, lock the account on
the 5th, and a 6th attempt with correct credentials is rejected as
locked; attempts against a nonexistent email yield the plain
invalid-credentials error and never change the lock flag. -/
theorem lockout_after_five_wrong_passwords
    (ident : String) (u : DbUser) (di : DeviceInfo) (md5 : String → String)
    (t1 t2 t3 t4 t5 t6 : LoginTicket) :
    (login ⟨ident, some u, false, di, md5⟩ t1 emptyReadyStore).1 =
      LoginResult.err ErrKind.authentication "Invalid credentials. 4 attempts remaining." ∧
    ((login ⟨ident, some u, false, di, md5⟩ t5
      (login ⟨ident, some u, false, di, md5⟩ t4
        (login ⟨ident, some u, false, di, md5⟩ t3
          (login ⟨ident, some u, false, di, md5⟩ t2
            (login ⟨ident, some u, false, di, md5⟩ t1 emptyReadyStore).2).2).2).2).1 =
      LoginResult.err ErrKind.tooManyRequests
        "Account locked due to multiple failed attempts. Please try again in 15 minutes.") ∧
    (failedAttemptsService.isAccountLocked
      (login ⟨ident, some u, false, di, md5⟩ t5
      (login ⟨ident, some u, false, di, md5⟩ t4
        (login ⟨ident, some u, false, di, md5⟩ t3
          (login ⟨ident, some u, false, di, md5⟩ t2
            (login ⟨ident, some u, false, di, md5⟩ t1 emptyReadyStore).2).2).2).2).2 ident
      = true) ∧
    ((login ⟨ident, some u, true, di, md5⟩ t6
      (login ⟨ident, some u, false, di, md5⟩ t5
      (login ⟨ident, some u, false, di, md5⟩ t4
        (login ⟨ident, some u, false, di, md5⟩ t3
          (login ⟨ident, some u, false, di, md5⟩ t2
            (login ⟨ident, some u, false, di, md5⟩ t1 emptyReadyStore).2).2).2).2).2).1 =
      LoginResult.err ErrKind.tooManyRequests
        "Account temporarily locked due to multiple failed attempts. Please try again later.") ∧
    (∀ (env : LoginEnv) (t : LoginTicket) (st : Store), st.ready = true →
      env.findUser = none →
      failedAttemptsService.isAccountLocked st env.identifier = false →
      (login env t st).1 = LoginResult.err ErrKind.authentication "Invalid credentials" ∧
      (login env t st).2.get (RKey.accountLock env.identifier)
        = st.get (RKey.accountLock env.identifier)) := by
  refine ⟨?_, ?_, ?_, ?_, ?_⟩
  · simp [login, emptyReadyStore, failedAttemptsService.isAccountLocked,
      failedAttemptsService.incrementFailedAttempts, failedAttemptsService.lockAccount,
      Store.incr, Store.expire, Store.keyExists, Store.setex, Store.get,
      aget, aset, adel]
    decide
  · simp [login, emptyReadyStore, failedAttemptsService.isAccountLocked,
      failedAttemptsService.incrementFailedAttempts, failedAttemptsService.lockAccount,
      Store.incr, Store.expire, Store.keyExists, Store.setex, Store.get,
      aget, aset, adel]
  · simp [login, emptyReadyStore, failedAttemptsService.isAccountLocked,
      failedAttemptsService.incrementFailedAttempts, failedAttemptsService.lockAccount,
      Store.incr, Store.expire, Store.keyExists, Store.setex, Store.get,
      aget, aset, adel]
  · simp [login, emptyReadyStore, failedAttemptsService.isAccountLocked,
      failedAttemptsService.incrementFailedAttempts, failedAttemptsService.lockAccount,
      Store.incr, Store.expire, Store.keyExists, Store.setex, Store.get,
      aget, aset, adel]
  · intro env t st hr hnone hlock
    unfold login
    rw [hlock, hnone]
    simp only [Bool.false_eq_true, if_false, failedAttemptsService.incrementFailedAttempts,
      hr, if_true]
    refine ⟨trivial, ?_⟩
    rw [get_expire]
    exact get_incr_ne st _ _ (by simp)

/-- Witness for the quantified absent-user conjunct of the amended C3
at a concrete environment. -/
theorem lockout_after_five_wrong_passwords_witness :
    (login exEnvNoUser (exTicket 1) emptyReadyStore).1 =
      LoginResult.err ErrKind.authentication "Invalid credentials" ∧
    (login exEnvNoUser (exTicket 1) emptyReadyStore).2.get (RKey.accountLock exIdent)
      = emptyReadyStore.get (RKey.accountLock exIdent) :=
  (lockout_after_five_wrong_passwords exIdent exUser exDeviceInfo id
    (exTicket 1) (exTicket 2) (exTicket 3) (exTicket 4) (exTicket 5)
    (exTicket 6)).2.2.2.2 exEnvNoUser (exTicket 1) emptyReadyStore rfl rfl (by decide)

/-- Counterexample for C4: with the same identifier and the same prior
failure count (zero), a login against a nonexistent email and one
against an existing email with a wrong password produce different
caller-visible outcomes — the wrong-password message appends the
remaining-attempt count, so the two cases are distinguishable. -/
theorem enumeration_distinguishable_counterexample :
    (login exEnvNoUser (exTicket 1) emptyReadyStore).1 =
      LoginResult.err ErrKind.authentication "Invalid credentials" ∧
    (login exEnvWrongPw (exTicket 1) emptyReadyStore).1 =
      LoginResult.err ErrKind.authentication "Invalid credentials. 4 attempts remaining." ∧
    (login exEnvNoUser (exTicket 1) emptyReadyStore).1 ≠
      (login exEnvWrongPw (exTicket 1) emptyReadyStore).1 := by
  decide

/-- C4 as amended: for the same identifier and the same prior failure
count, while the resulting count stays below the lockout threshold the
two failure cases agree on the error kind (authentication) and neither
changes the lock flag, but their message contents differ: user-not-
found reports plain invalid credentials while wrong-password appends
the remaining-attempt count, so the branches are distinguishable by
message (and at the threshold also by kind, since only wrong-password
locks). -/
theorem enumeration_same_kind_different_message
    (st : Store) (ident : String) (u : DbUser) (di1 di2 : DeviceInfo)
    (md51 md52 : String → String) (t t' : LoginTicket) (c : Nat)
    (hr : st.ready = true)
    (hlock : failedAttemptsService.isAccountLocked st ident = false)
    (hcnt : st.get (RKey.failedAttempts ident) = some (RVal.num c))
    (hlt : c + 1 < 5) :
    ∃ mN mW,
      (login ⟨ident, none, false, di1, md51⟩ t st).1 =
        LoginResult.err ErrKind.authentication mN ∧
      (login ⟨ident, some u, false, di2, md52⟩ t' st).1 =
        LoginResult.err ErrKind.authentication mW ∧
      mN ≠ mW ∧
      (login ⟨ident, none, false, di1, md51⟩ t st).2.get (RKey.accountLock ident)
        = st.get (RKey.accountLock ident) ∧
      (login ⟨ident, some u, false, di2, md52⟩ t' st).2.get (RKey.accountLock ident)
        = st.get (RKey.accountLock ident) := by
  have hcnt' : aget st.kv (RKey.failedAttempts ident) = some (RVal.num c) := hcnt
  refine ⟨"Invalid credentials",
    "Invalid credentials. " ++ toString (5 - (c + 1)) ++ " attempts remaining.",
    ?_, ?_, ?_, ?_, ?_⟩
  · unfold login
    rw [hlock]
    rfl
  · unfold login
    rw [hlock]
    simp only [Bool.false_eq_true, if_false, Bool.not_false, if_true,
      failedAttemptsService.incrementFailedAttempts, hr, Store.incr, hcnt']
    rw [if_neg (by omega)]
  · have hc : c = 0 ∨ c = 1 ∨ c = 2 ∨ c = 3 := by omega
    rcases hc with h | h | h | h <;> subst h <;> decide
  · unfold login
    rw [hlock]
    simp only [Bool.false_eq_true, if_false, failedAttemptsService.incrementFailedAttempts,
      hr, if_true]
    rw [get_expire]
    exact get_incr_ne st _ _ (by simp)
  · unfold login
    rw [hlock]
    simp only [Bool.false_eq_true, if_false, Bool.not_false, if_true,
      failedAttemptsService.incrementFailedAttempts, hr, Store.incr, hcnt']
    rw [if_neg (by omega)]
    simp only [Store.get, Store.expire]
    split <;> exact aget_aset_ne _ _ _ _ (by simp)

/-- Witness for the amended C4 at prior count zero. -/
theorem enumeration_same_kind_different_message_witness :
    ∃ mN mW,
      (login ⟨exIdent, none, false, exDeviceInfo, id⟩ (exTicket 1) (exStoreC 0)).1 =
        LoginResult.err ErrKind.authentication mN ∧
      (login ⟨exIdent, some exUser, false, exDeviceInfo, id⟩ (exTicket 2) (exStoreC 0)).1 =
        LoginResult.err ErrKind.authentication mW ∧
      mN ≠ mW ∧
      (login ⟨exIdent, none, false, exDeviceInfo, id⟩ (exTicket 1) (exStoreC 0)).2.get
          (RKey.accountLock exIdent)
        = (exStoreC 0).get (RKey.accountLock exIdent) ∧
      (login ⟨exIdent, some exUser, false, exDeviceInfo, id⟩ (exTicket 2) (exStoreC 0)).2.get
          (RKey.accountLock exIdent)
        = (exStoreC 0).get (RKey.accountLock exIdent) :=
  enumeration_same_kind_different_message (exStoreC 0) exIdent exUser exDeviceInfo exDeviceInfo
    id id (exTicket 1) (exTicket 2) 0 rfl (by decide) rfl (by decide)

/-- Unfolding of deactivateDevice when the head matches. -/
theorem deactivateDevice_cons_eq (d : Device) (rest : List Device) (did : String)
    (h : d.deviceId = did) :
    deactivateDevice (d :: rest) did = (true, { d with isActive := false } :: rest) := by
  simp [deactivateDevice, h]

/-- Unfolding of deactivateDevice when the head does not match. -/
theorem deactivateDevice_cons_ne (d : Device) (rest : List Device) (did : String)
    (h : ¬d.deviceId = did) :
    deactivateDevice (d :: rest) did
      = ((deactivateDevice rest did).1, d :: (deactivateDevice rest did).2) := by
  rcases he : deactivateDevice rest did with ⟨f, r⟩
  simp [deactivateDevice, h, he]

/-- When no device carries the id, deactivateDevice reports false and
leaves the list unchanged. -/
theorem deactivateDevice_not_found (devices : List Device) (did : String)
    (h : ∀ d ∈ devices, d.deviceId ≠ did) :
    deactivateDevice devices did = (false, devices) := by
  induction devices with
  | nil => rfl
  | cons d rest ih =>
    have hd : ¬d.deviceId = did := h d (List.mem_cons_self d rest)
    rw [deactivateDevice_cons_ne d rest did hd,
      ih (fun x hx => h x (List.mem_cons_of_mem d hx))]

/-- Counterexample for C5: on a list holding one active device d1,
deactivateDevice returns true on the first call and true again — not
false — on the second call, while the list is unchanged by the second
call. -/
theorem deactivate_twice_counterexample :
    (deactivateDevice [exDevice] "d1").1 = true ∧
    deactivateDevice (deactivateDevice [exDevice] "d1").2 "d1"
      = (true, (deactivateDevice [exDevice] "d1").2) := by
  decide

/-- C5 as amended: deactivateDevice looks the device up by id alone,
ignoring its active flag, so whenever a device with the id exists (in
particular one that is currently active) both the first and the second
call return true, the second call leaving the list unchanged; false is
returned only when no device with the id exists, in which case the
list is also unchanged. -/
theorem deactivateDevice_repeat (devices devices2 : List Device) (did did2 : String)
    (h : ∃ d ∈ devices, d.deviceId = did)
    (h2 : ∀ d ∈ devices2, d.deviceId ≠ did2) :
    (deactivateDevice devices did).1 = true ∧
    deactivateDevice (deactivateDevice devices did).2 did
      = (true, (deactivateDevice devices did).2) ∧
    deactivateDevice devices2 did2 = (false, devices2) := by
  refine ?_
  have main : (deactivateDevice devices did).1 = true ∧
      deactivateDevice (deactivateDevice devices did).2 did
        = (true, (deactivateDevice devices did).2) := by
    induction devices with
    | nil =>
      rcases h with ⟨d, hd, _⟩
      cases hd
    | cons d rest ih =>
      by_cases hd : d.deviceId = did
      · rw [deactivateDevice_cons_eq d rest did hd]
        refine ⟨rfl, ?_⟩
        dsimp only
        rw [deactivateDevice_cons_eq _ rest did (by simpa using hd)]
      · have h' : ∃ x ∈ rest, x.deviceId = did := by
          rcases h with ⟨x, hx, hxid⟩
          rcases List.mem_cons.mp hx with rfl | hmem
          · exact absurd hxid hd
          · exact ⟨x, hmem, hxid⟩
        obtain ⟨ih1, ih2⟩ := ih h'
        rw [deactivateDevice_cons_ne d rest did hd]
        refine ⟨ih1, ?_⟩
        dsimp only
        rw [deactivateDevice_cons_ne d _ did hd]
        rw [ih2]
  exact ⟨main.1, main.2, deactivateDevice_not_found devices2 did2 h2⟩

/-- Witness for the amended C5: one active device d1, deactivated
twice; and a lookup of a missing id d9. -/
theorem deactivateDevice_repeat_witness :
    (deactivateDevice [exDevice] "d1").1 = true ∧
    deactivateDevice (deactivateDevice [exDevice] "d1").2 "d1"
      = (true, (deactivateDevice [exDevice] "d1").2) ∧
    deactivateDevice [exDevice] "d9" = (false, [exDevice]) :=
  deactivateDevice_repeat [exDevice] [exDevice] "d1" "d9" (by decide) (by decide)

/-- updateFirst preserves the list length. -/
theorem length_updateFirst {α : Type} (p : α → Bool) (f : α → α) (l : List α) :
    (updateFirst p f l).length = l.length := by
  induction l with
  | nil => rfl
  | cons x rest ih =>
    by_cases hx : p x
    · simp [updateFirst, hx]
    · simp [updateFirst, hx, ih]

/-- C6: the device list stays bounded by 10 entries under
updateDeviceInfo, and when a login inserts an 11th distinct
fingerprint the entry with the (unique) oldest lastSeen is removed and
the result is exactly the remaining 10 most recent entries (stated as
a permutation of the 11 candidates with the oldest erased). -/
theorem device_list_bound_and_eviction :
    (∀ (md5 : String → String) (devices : List Device) (info : DeviceInfo) (now : Nat),
      devices.length ≤ 10 → (updateDeviceInfo md5 devices info now).2.length ≤ 10) ∧
    (∀ (md5 : String → String) (devices : List Device) (info : DeviceInfo) (now : Nat)
      (dmin : Device),
      devices.length = 10 →
      (∀ d ∈ devices, d.deviceId ≠ generateDeviceId md5 info) →
      (devices ++ [newDeviceEntry (generateDeviceId md5 info) info now]).Pairwise
        (fun a b => a.lastSeen ≠ b.lastSeen) →
      dmin ∈ devices ++ [newDeviceEntry (generateDeviceId md5 info) info now] →
      (∀ d ∈ devices ++ [newDeviceEntry (generateDeviceId md5 info) info now],
        dmin.lastSeen ≤ d.lastSeen) →
      (updateDeviceInfo md5 devices info now).2.length = 10 ∧
      dmin ∉ (updateDeviceInfo md5 devices info now).2 ∧
      (updateDeviceInfo md5 devices info now).2.Perm
        ((devices ++ [newDeviceEntry (generateDeviceId md5 info) info now]).erase dmin)) := by
  constructor
  · intro md5 devices info now hlen
    unfold updateDeviceInfo
    by_cases hany : devices.any (fun d => d.deviceId == generateDeviceId md5 info)
    · simp [hany, length_updateFirst, hlen]
    · simp only [hany, Bool.false_eq_true, if_false]
      split
      · simp [List.length_take, List.length_mergeSort]
      · rename_i hgt
        simp only [List.length_append, List.length_singleton] at hgt ⊢
        omega
  · intro md5 devices info now dmin hlen hnew hdist hmem hmin
    have hany : devices.any (fun d => d.deviceId == generateDeviceId md5 info) = false := by
      rw [List.any_eq_false]
      intro d hd
      simp [hnew d hd]
    have hres : (updateDeviceInfo md5 devices info now).2 =
        ((devices ++ [newDeviceEntry (generateDeviceId md5 info) info now]).mergeSort
          byLastSeenDesc).take 10 := by
      unfold updateDeviceInfo
      simp only [hany, Bool.false_eq_true, if_false]
      rw [if_pos]
      simp [List.length_append, hlen]
    set all11 := devices ++ [newDeviceEntry (generateDeviceId md5 info) info now] with hall
    set s := all11.mergeSort byLastSeenDesc with hsdef
    have hperm : s.Perm all11 := List.mergeSort_perm all11 byLastSeenDesc
    have hslen : s.length = 11 := by
      rw [hsdef, List.length_mergeSort, hall, List.length_append, hlen]
      rfl
    have hsorted : s.Pairwise (fun a b => byLastSeenDesc a b = true) :=
      List.sorted_mergeSort
        (by intro a b c hab hbc; simp [byLastSeenDesc] at hab hbc ⊢; omega)
        (by intro a b; simp [byLastSeenDesc]; omega)
        all11
    have hdroplen : (s.drop 10).length = 1 := by rw [List.length_drop, hslen]
    obtain ⟨dl, hdl⟩ := List.length_eq_one.mp hdroplen
    have hs : s = s.take 10 ++ [dl] := by
      conv_lhs => rw [← List.take_append_drop 10 s]
      rw [hdl]
    have hsdist : s.Pairwise (fun a b => a.lastSeen ≠ b.lastSeen) :=
      (List.Perm.pairwise_iff (fun hxy => Ne.symm hxy) hperm).mpr hdist
    have hdlmem : dl ∈ all11 := by
      apply hperm.mem_iff.mp
      rw [hs]
      simp
    have hrel : ∀ a ∈ s.take 10, byLastSeenDesc a dl = true := by
      have := hsorted
      rw [hs] at this
      obtain ⟨-, -, hr⟩ := List.pairwise_append.mp this
      intro a ha
      exact hr a ha dl (List.mem_singleton_self dl)
    have hdl_notin : dl ∉ s.take 10 := by
      intro hin
      have := hsdist
      rw [hs] at this
      obtain ⟨-, -, hr⟩ := List.pairwise_append.mp this
      exact hr dl hin dl (List.mem_singleton_self dl) rfl
    have hdl_eq : dl = dmin := by
      by_contra hne
      have hdmins : dmin ∈ s := hperm.mem_iff.mpr hmem
      have hdmintake : dmin ∈ s.take 10 := by
        rw [hs] at hdmins
        rcases List.mem_append.mp hdmins with h | h
        · exact h
        · exact absurd (List.mem_singleton.mp h).symm hne
      have h1 : dl.lastSeen ≤ dmin.lastSeen := by
        have := hrel dmin hdmintake
        simpa [byLastSeenDesc] using this
      have h2 : dmin.lastSeen ≤ dl.lastSeen := hmin dl hdlmem
      have hne' : dmin.lastSeen ≠ dl.lastSeen := by
        have hsymm : ∀ {x y : Device}, x.lastSeen ≠ y.lastSeen → y.lastSeen ≠ x.lastSeen :=
          fun hxy => Ne.symm hxy
        exact List.Pairwise.forall (fun _ _ h => Ne.symm h) hdist hmem hdlmem
          (fun hEq => hne (hEq ▸ rfl))
      omega
    have herase : (s.take 10).Perm (all11.erase dmin) := by
      have h1 : s.erase dmin = s.take 10 := by
        conv_lhs => rw [hs, ← hdl_eq]
        rw [List.erase_append_right _ hdl_notin]
        simp
      have h2 : (s.erase dmin).Perm (all11.erase dmin) := List.Perm.erase dmin hperm
      rw [h1] at h2
      exact h2
    rw [hres]
    refine ⟨?_, ?_, ?_⟩
    · rw [List.length_take, hslen]
      rfl
    · exact hdl_eq ▸ hdl_notin
    · exact herase

/-- Witness for C6: ten devices with lastSeen 1..10 plus a fresh
fingerprint; the entry with lastSeen 1 is evicted. -/
theorem device_list_bound_and_eviction_witness :
    (updateDeviceInfo id exTenDevices exDeviceInfo 50).2.length ≤ 10 ∧
    ((updateDeviceInfo id exTenDevices exNewInfo 100).2.length = 10 ∧
      exDeviceN 1 ∉ (updateDeviceInfo id exTenDevices exNewInfo 100).2 ∧
      (updateDeviceInfo id exTenDevices exNewInfo 100).2.Perm
        ((exTenDevices ++ [newDeviceEntry (generateDeviceId id exNewInfo) exNewInfo 100]).erase
          (exDeviceN 1))) :=
  ⟨device_list_bound_and_eviction.1 id exTenDevices exDeviceInfo 50 (by decide),
   device_list_bound_and_eviction.2 id exTenDevices exNewInfo 100 (exDeviceN 1)
     (by decide) (by decide) (by decide) (by decide) (by decide)⟩

/-- C7: refreshSession with force false is a throttled no-op that
still returns true when the marker key records a refresh within the
30-second window; when the marker is stale or absent, or when force is
true, it re-arms the TTL of the (existing) session record to the
session timeout and returns true. -/
theorem refresh_session_throttle :
    (∀ (st : Store) (now last : Nat) (sid : String),
      st.ready = true →
      st.get (RKey.sessionRefresh sid) = some (RVal.num last) →
      now - last < SESSION_REFRESH_THROTTLE * 1000 →
      sessionService.refreshSession st now sid false = (true, st)) ∧
    (∀ (st : Store) (now last : Nat) (sid : String),
      st.ready = true →
      st.get (RKey.sessionRefresh sid) = some (RVal.num last) →
      SESSION_REFRESH_THROTTLE * 1000 ≤ now - last →
      (st.get (RKey.session sid)).isSome = true →
      (sessionService.refreshSession st now sid false).1 = true ∧
      aget (sessionService.refreshSession st now sid false).2.ttl (RKey.session sid)
        = some SESSION_TIMEOUT) ∧
    (∀ (st : Store) (now : Nat) (sid : String),
      st.ready = true →
      st.get (RKey.sessionRefresh sid) = none →
      (st.get (RKey.session sid)).isSome = true →
      (sessionService.refreshSession st now sid false).1 = true ∧
      aget (sessionService.refreshSession st now sid false).2.ttl (RKey.session sid)
        = some SESSION_TIMEOUT) ∧
    (∀ (st : Store) (now : Nat) (sid : String),
      st.ready = true →
      (st.get (RKey.session sid)).isSome = true →
      (sessionService.refreshSession st now sid true).1 = true ∧
      aget (sessionService.refreshSession st now sid true).2.ttl (RKey.session sid)
        = some SESSION_TIMEOUT) := by
  refine ⟨?_, ?_, ?_, ?_⟩
  · intro st now last sid hr hm hwin
    have hnle : ¬(SESSION_REFRESH_THROTTLE * 1000 ≤ now - last) := by omega
    simp [sessionService.refreshSession, hr, hm, hnle]
  · intro st now last sid hr hm hstale hex
    have hkv : aget st.kv (RKey.session sid) = st.get (RKey.session sid) := rfl
    constructor
    · simp [sessionService.refreshSession, hr, hm, hstale]
    · simp only [sessionService.refreshSession, hr, if_true, Bool.false_eq_true, if_false,
        hm, decide_eq_true hstale]
      simp only [Store.expire, Store.keyExists, Store.setex]
      rw [if_pos]
      · exact aget_aset_same _ _ _
      · simp only [aget_aset_ne _ _ _ _ (by simp : RKey.sessionRefresh sid ≠ RKey.session sid)]
        simp [hkv, hex]
  · intro st now sid hr hm hex
    have hkv : aget st.kv (RKey.session sid) = st.get (RKey.session sid) := rfl
    constructor
    · simp [sessionService.refreshSession, hr, hm]
    · simp only [sessionService.refreshSession, hr, if_true, Bool.false_eq_true, if_false, hm]
      simp only [Store.expire, Store.keyExists, Store.setex]
      rw [if_pos]
      · exact aget_aset_same _ _ _
      · simp only [aget_aset_ne _ _ _ _ (by simp : RKey.sessionRefresh sid ≠ RKey.session sid)]
        simp [hkv, hex]
  · intro st now sid hr hex
    constructor
    · simp [sessionService.refreshSession, hr]
    · simp only [sessionService.refreshSession, hr, if_true]
      simp only [Store.expire, Store.keyExists]
      rw [if_pos]
      · exact aget_aset_same _ _ _
      · simp [Store.get] at hex
        simp [hex]

/-- Witness for C7: a session with a marker recorded at millisecond
100000, refreshed at 100500 (throttled no-op), at 200000 (stale,
re-armed), without a marker, and with force. -/
theorem refresh_session_throttle_witness :
    sessionService.refreshSession exSessStore 100500 "s1" false = (true, exSessStore) ∧
    ((sessionService.refreshSession exSessStore 200000 "s1" false).1 = true ∧
      aget (sessionService.refreshSession exSessStore 200000 "s1" false).2.ttl
        (RKey.session "s1") = some SESSION_TIMEOUT) ∧
    ((sessionService.refreshSession
        ⟨[(RKey.session "s1", RVal.sess ⟨"u1", "s1", 0, "a@example.com", "Ada", "L"⟩)],
         [(RKey.session "s1", 10)], [], true⟩ 500 "s1" false).1 = true ∧
      aget (sessionService.refreshSession
        ⟨[(RKey.session "s1", RVal.sess ⟨"u1", "s1", 0, "a@example.com", "Ada", "L"⟩)],
         [(RKey.session "s1", 10)], [], true⟩ 500 "s1" false).2.ttl
        (RKey.session "s1") = some SESSION_TIMEOUT) ∧
    ((sessionService.refreshSession exSessStore 100500 "s1" true).1 = true ∧
      aget (sessionService.refreshSession exSessStore 100500 "s1" true).2.ttl
        (RKey.session "s1") = some SESSION_TIMEOUT) :=
  ⟨refresh_session_throttle.1 exSessStore 100500 100000 "s1" rfl (by decide) (by decide),
   refresh_session_throttle.2.1 exSessStore 200000 100000 "s1" rfl (by decide) (by decide)
     (by decide),
   refresh_session_throttle.2.2.1
     ⟨[(RKey.session "s1", RVal.sess ⟨"u1", "s1", 0, "a@example.com", "Ada", "L"⟩)],
      [(RKey.session "s1", 10)], [], true⟩ 500 "s1" rfl (by decide) (by decide),
   refresh_session_throttle.2.2.2 exSessStore 100500 "s1" rfl (by decide)⟩

/-- C8: the device fingerprint is a hash of the string built from
browser name, OS name, device type and device vendor only, so two
inputs agreeing on those four fields (whatever their versions, IP,
user agent or push token) get the same deviceId, and repeated calls on
one input agree. -/
theorem fingerprint_coarse_deterministic :
    (∀ (md5hex : String → String) (d1 d2 : DeviceInfo),
      d1.browserName = d2.browserName → d1.osName = d2.osName →
      d1.deviceType = d2.deviceType → d1.deviceVendor = d2.deviceVendor →
      generateDeviceId md5hex d1 = generateDeviceId md5hex d2) ∧
    (∀ (md5hex : String → String) (d : DeviceInfo),
      generateDeviceId md5hex d = generateDeviceId md5hex d) := by
  constructor
  · intro md5hex d1 d2 h1 h2 h3 h4
    unfold generateDeviceId deviceString
    rw [h1, h2, h3, h4]
  · intro _ _
    rfl

/-- Witness for C8: two device infos differing in browser version, IP,
user agent and push token share the fingerprint. -/
theorem fingerprint_coarse_deterministic_witness :
    exDeviceInfo.browserVersion ≠ exDeviceInfo2.browserVersion ∧
    exDeviceInfo.ip ≠ exDeviceInfo2.ip ∧
    generateDeviceId id exDeviceInfo = generateDeviceId id exDeviceInfo2 :=
  ⟨by decide, by decide,
   fingerprint_coarse_deterministic.1 id exDeviceInfo exDeviceInfo2 rfl rfl rfl rfl⟩

/-- C9: the sessionService object of redis.js defines no
getSessionTimeLeft method, so the session-status route, which calls
sessionService.getSessionTimeLeft, always answers with the 500
Failed-to-get-session-status response instead of the remaining
seconds the claim describes. -/
theorem session_status_time_left_bug :
    "getSessionTimeLeft" ∉ sessionServiceMethods ∧
    ∀ sid, sessionStatusRoute sid
      = SessionStatusResult.serverError "Failed to get session status" := by
  constructor
  · decide
  · intro sid
    rfl

/-- SREM removes the member from the set it names. -/
theorem not_mem_smembers_srem (st : Store) (k : RKey) (m : String) :
    m ∉ (st.srem k m).smembers k := by
  unfold Store.srem Store.smembers
  split
  · rename_i ms hms
    simp [aget_aset_same, List.mem_filter]
  · rename_i hms
    simp [hms]

/-- C10: when a presented refresh token verifies and its record exists
but the referenced session is gone or the user is missing or inactive,
the exchange fails with the corresponding error and deletes the token
record and its membership in the per-user token set, so an immediate
second exchange with the same token fails with token-not-found and
changes nothing. -/
theorem refresh_token_cleanup
    (findUserById : String → Option DbUser) (uid sid tok newAT newAT2 : String)
    (now now2 : Nat) (st : Store) (td : TokenData)
    (hr : st.ready = true)
    (htok : sessionService.getRefreshToken st tok = some td)
    (hbad : sessionService.getSession st sid = none ∨ findUserById uid = none ∨
      (∃ u, findUserById uid = some u ∧ u.isActive = false)) :
    ((refreshTokenRoute findUserById (some (uid, sid)) newAT now tok st).1 =
        RefreshOutcome.sessionExpired ∨
      (refreshTokenRoute findUserById (some (uid, sid)) newAT now tok st).1 =
        RefreshOutcome.userNotFoundOrInactive) ∧
    (refreshTokenRoute findUserById (some (uid, sid)) newAT now tok st).2.get
      (RKey.refreshToken tok) = none ∧
    tok ∉ (refreshTokenRoute findUserById (some (uid, sid)) newAT now tok st).2.smembers
      (RKey.userRefreshTokens td.userId) ∧
    refreshTokenRoute findUserById (some (uid, sid)) newAT2 now2 tok
      (refreshTokenRoute findUserById (some (uid, sid)) newAT now tok st).2
      = (RefreshOutcome.tokenNotFound,
         (refreshTokenRoute findUserById (some (uid, sid)) newAT now tok st).2) := by
  have hroute : (refreshTokenRoute findUserById (some (uid, sid)) newAT now tok st).2
        = sessionService.deleteRefreshToken st tok ∧
      ((refreshTokenRoute findUserById (some (uid, sid)) newAT now tok st).1 =
          RefreshOutcome.sessionExpired ∨
        (refreshTokenRoute findUserById (some (uid, sid)) newAT now tok st).1 =
          RefreshOutcome.userNotFoundOrInactive) := by
    unfold refreshTokenRoute
    rw [htok]
    dsimp only
    rcases hbad with hsess | hu | ⟨u, hu, hact⟩
    · rw [hsess]
      exact ⟨rfl, Or.inl rfl⟩
    · cases hcase : sessionService.getSession st sid with
      | none => exact ⟨rfl, Or.inl rfl⟩
      | some sd =>
        rw [hu]
        exact ⟨rfl, Or.inr rfl⟩
    · cases hcase : sessionService.getSession st sid with
      | none => exact ⟨rfl, Or.inl rfl⟩
      | some sd =>
        rw [hu]
        dsimp only
        rw [hact]
        exact ⟨rfl, Or.inr rfl⟩
  have hdel2 : (sessionService.deleteRefreshToken st tok).get (RKey.refreshToken tok)
      = none := by
    simp only [sessionService.deleteRefreshToken, hr, if_true, htok]
    rw [get_srem]
    exact get_del_same _ _
  have hdready : (sessionService.deleteRefreshToken st tok).ready = true := by
    simp [hr]
  refine ⟨hroute.2, ?_, ?_, ?_⟩
  · rw [hroute.1]
    exact hdel2
  · rw [hroute.1]
    simp only [sessionService.deleteRefreshToken, hr, if_true, htok]
    exact not_mem_smembers_srem _ _ tok
  · rw [hroute.1]
    have hnone : sessionService.getRefreshToken (sessionService.deleteRefreshToken st tok) tok
        = none := by
      simp only [sessionService.getRefreshToken, hdready, if_true, hdel2]
    unfold refreshTokenRoute
    dsimp only
    rw [hnone]

/-- Witness for C10: token r1 exists, session s1 does not; the first
exchange reports the session gone and deletes the token, the second
reports token-not-found. -/
theorem refresh_token_cleanup_witness :
    ((refreshTokenRoute (fun _ => some exUser) (some ("u1", "s1")) "newAT" 0 "r1" exTokStore).1 =
        RefreshOutcome.sessionExpired ∨
      (refreshTokenRoute (fun _ => some exUser) (some ("u1", "s1")) "newAT" 0 "r1" exTokStore).1 =
        RefreshOutcome.userNotFoundOrInactive) ∧
    (refreshTokenRoute (fun _ => some exUser) (some ("u1", "s1")) "newAT" 0 "r1" exTokStore).2.get
      (RKey.refreshToken "r1") = none ∧
    "r1" ∉ (refreshTokenRoute (fun _ => some exUser) (some ("u1", "s1")) "newAT" 0 "r1"
        exTokStore).2.smembers (RKey.userRefreshTokens "u1") ∧
    refreshTokenRoute (fun _ => some exUser) (some ("u1", "s1")) "newAT2" 1 "r1"
      (refreshTokenRoute (fun _ => some exUser) (some ("u1", "s1")) "newAT" 0 "r1" exTokStore).2
      = (RefreshOutcome.tokenNotFound,
         (refreshTokenRoute (fun _ => some exUser) (some ("u1", "s1")) "newAT" 0 "r1"
           exTokStore).2) :=
  refresh_token_cleanup (fun _ => some exUser) "u1" "s1" "r1" "newAT" "newAT2" 0 1
    exTokStore ⟨"u1", "s1", 0⟩ rfl (by decide) (Or.inl (by decide))
